import Mathlib

/-!
# Load-balancer client of govultr (`load_balancer.go`)

A shallow embedding of the load-balancer handler: the records of the data
model with their JSON tags, the thirteen operations of `LoadBalancerHandler`,
and the way each of them drives the shared client (`NewRequest`,
`DoWithContext`) and the query encoder.

Conventions of the embedding.

* A Go pointer `*T` is `Option T` (`none` is `nil`); a slice `[]T` is `List T`
  (`[]` stands for both the nil and the empty slice, which `omitempty` and
  `len` do not distinguish); `int` is `Int`; `error` is `Option Err`.
* The `context.Context` argument is only passed through to the shared client
  and is left out.
* The shared client is a parameter: `NewRequest` and `DoWithContext` are
  arbitrary functions, so that a statement proved for every `Env` holds for
  every behaviour of the client. A handler calls each of them at most once, so
  a function of the arguments covers every answer the client can give.
* Every call of the shared client is recorded in a log, in call order.
* Reading a field through a nil pointer is a run-time panic; an execution that
  panics keeps the log it had built.
-/

set_option autoImplicit false

namespace GoVultr

/-! ## JSON values -/

/-- JSON document, as a tree. -/
inductive JSON where
  | null
  | bool (b : Bool)
  | num (n : Int)
  | str (s : String)
  | arr (xs : List JSON)
  | obj (kvs : List (String × JSON))

/-- Keys of a JSON object, in order (no keys for a value that is not an object). -/
def JSON.keys : JSON → List String
  | .obj kvs => kvs.map Prod.fst
  | _ => []

/-- Whether the JSON object has the key. -/
def JSON.hasKey (j : JSON) (k : String) : Bool := j.keys.contains k

/-- Value under a key of a JSON object (first occurrence). -/
def JSON.get? : JSON → String → Option JSON
  | .obj kvs, k => kvs.lookup k
  | _, _ => none

/-! ## encoding/json, as far as the struct tags of this file use it -/

/-- One struct field in the output of `json.Marshal`: a field tagged
`omitempty` whose value is empty (false, 0, nil pointer, empty slice, empty
string) is left out; any other field is written under its key. -/
def field (key : String) (omitempty : Bool) (isEmpty : Bool) (v : JSON) : List (String × JSON) :=
  if omitempty && isEmpty then [] else [(key, v)]

/-- A `string` field. -/
def strField (key : String) (omitempty : Bool) (s : String) : List (String × JSON) :=
  field key omitempty (s == "") (.str s)

/-- An `int` field. -/
def intField (key : String) (omitempty : Bool) (n : Int) : List (String × JSON) :=
  field key omitempty (n == 0) (.num n)

/-- A pointer field: nil is empty and is written as `null` when it is not omitted. -/
def ptrField {α : Type} (key : String) (omitempty : Bool) (p : Option α) (enc : α → JSON) :
    List (String × JSON) :=
  field key omitempty p.isNone (match p with | none => .null | some a => enc a)

/-- A slice field: a slice of length 0 is empty. -/
def sliceField {α : Type} (key : String) (omitempty : Bool) (xs : List α) (enc : α → JSON) :
    List (String × JSON) :=
  field key omitempty xs.isEmpty (.arr (xs.map enc))

/-! ## Data model (`load_balancer.go`, lines 36-148) -/

/-- Go slice `[]T`. -/
abbrev Slice (α : Type) : Type := List α

/-- HealthCheck represents your health check configuration for your load balancer. -/
structure HealthCheck where
  Protocol : String := ""
  Port : Int := 0
  Path : String := ""
  CheckInterval : Int := 0
  ResponseTimeout : Int := 0
  UnhealthyThreshold : Int := 0
  HealthyThreshold : Int := 0
  deriving DecidableEq, Repr

/-- StickySessions represents cookie for your load balancer. -/
structure StickySessions where
  CookieName : String := ""
  deriving DecidableEq, Repr

/-- GenericInfo represents generic configuration of your load balancer. -/
structure GenericInfo where
  BalancingAlgorithm : String := ""
  Timeout : Int := 0
  SSLRedirect : Option Bool := none
  StickySessions : Option StickySessions := none
  ProxyProtocol : Option Bool := none
  VPC : String := ""
  deriving DecidableEq, Repr

/-- ForwardingRule represent a single forwarding rule. -/
structure ForwardingRule where
  RuleID : String := ""
  FrontendProtocol : String := ""
  FrontendPort : Int := 0
  BackendProtocol : String := ""
  BackendPort : Int := 0
  deriving DecidableEq, Repr

/-- LBFirewallRule represent a single firewall rule. -/
structure LBFirewallRule where
  RuleID : String := ""
  Port : Int := 0
  IPType : String := ""
  Source : String := ""
  deriving DecidableEq, Repr

/-- SSL represents valid SSL config. -/
structure SSL where
  PrivateKey : String := ""
  Certificate : String := ""
  Chain : String := ""
  PrivateKeyB64 : String := ""
  CertificateB64 : String := ""
  ChainB64 : String := ""
  deriving DecidableEq, Repr

/-- AutoSSL represents valid AutoSSL config. -/
structure AutoSSL where
  DomainZone : String := ""
  DomainSub : String := ""
  Domain : String := ""
  deriving DecidableEq, Repr

/-- LoadBalancer represent the structure of a load balancer. -/
structure LoadBalancer where
  ID : String := ""
  DateCreated : String := ""
  Region : String := ""
  Label : String := ""
  Status : String := ""
  IPV4 : String := ""
  IPV6 : String := ""
  Instances : Slice String := []
  Nodes : Int := 0
  HealthCheck : Option HealthCheck := none
  GenericInfo : Option GenericInfo := none
  SSLInfo : Option Bool := none
  AutoSSL : Option AutoSSL := none
  HTTP2 : Option Bool := none
  HTTP3 : Option Bool := none
  ForwardingRules : Slice ForwardingRule := []
  FirewallRules : Slice LBFirewallRule := []
  GlobalRegions : Slice String := []
  deriving DecidableEq, Repr

/-- LoadBalancerReq gives options for creating or updating a load balancer. -/
structure LoadBalancerReq where
  Region : String := ""
  Label : String := ""
  Instances : Slice String := []
  Nodes : Int := 0
  HealthCheck : Option HealthCheck := none
  StickySessions : Option StickySessions := none
  ForwardingRules : Slice ForwardingRule := []
  SSL : Option SSL := none
  AutoSSL : Option AutoSSL := none
  SSLRedirect : Option Bool := none
  HTTP2 : Option Bool := none
  HTTP3 : Option Bool := none
  ProxyProtocol : Option Bool := none
  BalancingAlgorithm : String := ""
  FirewallRules : Slice LBFirewallRule := []
  Timeout : Int := 0
  VPC : Option String := none
  GlobalRegions : Slice String := []
  deriving DecidableEq, Repr

/-! ## Serialisation of the request records, field by field from the tags -/

/-- JSON of a HealthCheck (tags of lines 87-93, all `omitempty`). -/
def HealthCheck.marshal (h : HealthCheck) : JSON :=
  .obj (strField "protocol" true h.Protocol
    ++ intField "port" true h.Port
    ++ strField "path" true h.Path
    ++ intField "check_interval" true h.CheckInterval
    ++ intField "response_timeout" true h.ResponseTimeout
    ++ intField "unhealthy_threshold" true h.UnhealthyThreshold
    ++ intField "healthy_threshold" true h.HealthyThreshold)

/-- JSON of a StickySessions (tag of line 108). -/
def StickySessions.marshal (s : StickySessions) : JSON :=
  .obj (strField "cookie_name" true s.CookieName)

/-- JSON of a ForwardingRule (tags of lines 118-122, all `omitempty`). -/
def ForwardingRule.marshal (r : ForwardingRule) : JSON :=
  .obj (strField "id" true r.RuleID
    ++ strField "frontend_protocol" true r.FrontendProtocol
    ++ intField "frontend_port" true r.FrontendPort
    ++ strField "backend_protocol" true r.BackendProtocol
    ++ intField "backend_port" true r.BackendPort)

/-- JSON of an LBFirewallRule (tags of lines 127-130, all `omitempty`). -/
def LBFirewallRule.marshal (r : LBFirewallRule) : JSON :=
  .obj (strField "id" true r.RuleID
    ++ intField "port" true r.Port
    ++ strField "ip_type" true r.IPType
    ++ strField "source" true r.Source)

/-- JSON of an SSL record (tags of lines 135-140, all `omitempty`). -/
def SSL.marshal (s : SSL) : JSON :=
  .obj (strField "private_key" true s.PrivateKey
    ++ strField "certificate" true s.Certificate
    ++ strField "chain" true s.Chain
    ++ strField "private_key_b64" true s.PrivateKeyB64
    ++ strField "certificate_b64" true s.CertificateB64
    ++ strField "chain_b64" true s.ChainB64)

/-- JSON of an AutoSSL record (tags of lines 145-147): `domain_zone` is tagged
without `omitempty`, the other two fields with it. -/
def AutoSSL.marshal (a : AutoSSL) : JSON :=
  .obj (strField "domain_zone" false a.DomainZone
    ++ strField "domain_sub" true a.DomainSub
    ++ strField "domain" true a.Domain)

/-- JSON of a LoadBalancerReq (tags of lines 60-77, all `omitempty`). -/
def LoadBalancerReq.marshal (r : LoadBalancerReq) : JSON :=
  .obj (strField "region" true r.Region
    ++ strField "label" true r.Label
    ++ sliceField "instances" true r.Instances JSON.str
    ++ intField "nodes" true r.Nodes
    ++ ptrField "health_check" true r.HealthCheck HealthCheck.marshal
    ++ ptrField "sticky_session" true r.StickySessions StickySessions.marshal
    ++ sliceField "forwarding_rules" true r.ForwardingRules ForwardingRule.marshal
    ++ ptrField "ssl" true r.SSL SSL.marshal
    ++ ptrField "auto_ssl" true r.AutoSSL AutoSSL.marshal
    ++ ptrField "ssl_redirect" true r.SSLRedirect JSON.bool
    ++ ptrField "http2" true r.HTTP2 JSON.bool
    ++ ptrField "http3" true r.HTTP3 JSON.bool
    ++ ptrField "proxy_protocol" true r.ProxyProtocol JSON.bool
    ++ strField "balancing_algorithm" true r.BalancingAlgorithm
    ++ sliceField "firewall_rules" true r.FirewallRules LBFirewallRule.marshal
    ++ intField "timeout" true r.Timeout
    ++ ptrField "vpc" true r.VPC JSON.str
    ++ sliceField "global_regions" true r.GlobalRegions JSON.str)

/-! ## Response envelopes (`load_balancer.go`, lines 150-175) -/

/-- Modelled from the spec: `Meta`, the pagination cursor and metadata that
accompanies list responses; its declaration is not in `load_balancer.go`. The
handlers only pass it on. -/
structure Meta where
  Total : Int := 0
  Next : String := ""
  Prev : String := ""
  deriving DecidableEq, Repr

/-- Envelope of a list of load balancers. -/
structure lbsBase where
  LoadBalancers : Slice LoadBalancer := []
  Meta : Option Meta := none
  deriving DecidableEq, Repr

/-- Envelope of one load balancer. -/
structure lbBase where
  LoadBalancer : Option LoadBalancer := none
  deriving DecidableEq, Repr

/-- Envelope of a list of forwarding rules. -/
structure lbRulesBase where
  ForwardingRules : Slice ForwardingRule := []
  Meta : Option Meta := none
  deriving DecidableEq, Repr

/-- Envelope of one forwarding rule. -/
structure lbRuleBase where
  ForwardingRule : Option ForwardingRule := none
  deriving DecidableEq, Repr

/-- Envelope of a list of firewall rules. -/
structure lbFWRulesBase where
  FirewallRules : Slice LBFirewallRule := []
  Meta : Option Meta := none
  deriving DecidableEq, Repr

/-- Envelope of one firewall rule. -/
structure lbFWRuleBase where
  FirewallRule : Option LBFirewallRule := none
  deriving DecidableEq, Repr

/-! ## The shared client, as seen from the handlers -/

/-- HTTP methods the handlers use (`http.MethodGet`, ...). -/
inductive Method where
  | GET | POST | PATCH | DELETE
  deriving DecidableEq, Repr

/-- Go `error` value. -/
structure Err where
  msg : String
  deriving DecidableEq, Repr

/-- The `body interface{}` argument of `NewRequest`: nil, a `*LoadBalancerReq`
or a `*ForwardingRule`, exactly as the caller passed it. -/
inductive Body where
  | nil
  | lbReq (r : Option LoadBalancerReq)
  | rule (r : Option ForwardingRule)
  deriving DecidableEq, Repr

/-- JSON that the body serialises to (`none`: no body is written; a nil
pointer of a record type is written as `null`). -/
def Body.marshal : Body → Option JSON
  | .nil => none
  | .lbReq none => some .null
  | .lbReq (some r) => some r.marshal
  | .rule none => some .null
  | .rule (some r) => some r.marshal

/-- The parts of `url.URL` the handlers touch. -/
structure URL where
  Path : String
  RawQuery : String
  deriving DecidableEq, Repr

/-- The parts of `http.Request` that matter here. -/
structure Request where
  Method : Method
  URL : URL
  Body : Body
  deriving DecidableEq, Repr

/-- The parts of `http.Response` that matter here. -/
structure Response where
  StatusCode : Nat
  Body : String
  deriving DecidableEq, Repr

/-- The six envelope types a response is decoded into. -/
inductive EnvKind where
  | lbs | lb | rules | rule | fwRules | fwRule
  deriving DecidableEq, Repr

/-- Go type of an envelope kind. -/
@[reducible] def EnvKind.T : EnvKind → Type
  | .lbs => lbsBase
  | .lb => lbBase
  | .rules => lbRulesBase
  | .rule => lbRuleBase
  | .fwRules => lbFWRulesBase
  | .fwRule => lbFWRuleBase

/-- The zero value `new(T)` points to. -/
def EnvKind.zero : (k : EnvKind) → k.T
  | .lbs => {}
  | .lb => {}
  | .rules => {}
  | .rule => {}
  | .fwRules => {}
  | .fwRule => {}

/-- The `data interface{}` argument of `DoWithContext`: nil, an envelope
pointer `p` (the callee can write the envelope `*p`), or the address `&p` of an
envelope pointer (the callee can write the pointer `p` itself, nil included,
and what it points to). -/
inductive Data where
  | nil
  | ptr (k : EnvKind) (v : k.T)
  | ptrptr (k : EnvKind) (p : Option k.T)

/-- What the caller finds behind `data` after the call: the envelope for an
envelope pointer, the envelope pointer for the address of one. -/
@[reducible] def Data.Post : Data → Type
  | .nil => Unit
  | .ptr k _ => k.T
  | .ptrptr k _ => Option k.T

/-- Everything `DoWithContext` hands back: the two return values and the
state of the memory behind `data`. -/
structure DoResult (d : Data) where
  resp : Option Response
  err : Option Err
  post : d.Post

/-- Modelled from the spec: `ListOptions`, the pagination options of the list
operations (pagination cursor, page size); its declaration is not in
`load_balancer.go`. Both fields are encoded only when non-default. -/
structure ListOptions where
  PerPage : Int := 0
  Cursor : String := ""
  deriving DecidableEq, Repr

/-- The `url.Values` map, as the list of its entries. -/
abbrev Values := List (String × List String)

/-- What the handlers call: `client.NewRequest`, `client.DoWithContext` and
`query.Values`. `NewRequest` returns a request or an error. -/
structure Env where
  NewRequest : Method → String → Body → Except Err Request
  DoWithContext : Request → (d : Data) → DoResult d
  queryValues : Option ListOptions → Except Err Values

/-! ## Executions with a call log -/

/-- One call of the shared client, with its arguments. -/
inductive Event where
  | newRequest (method : Method) (uri : String) (body : Body)
  | doWithContext (req : Request) (data : Data)

/-- Whether the event is a call of `NewRequest`. -/
def Event.isNewRequest : Event → Bool
  | .newRequest _ _ _ => true
  | .doWithContext _ _ => false

/-- Whether the event is a call of `DoWithContext`. -/
def Event.isDoWithContext : Event → Bool
  | .newRequest _ _ _ => false
  | .doWithContext _ _ => true

/-- How a call ends: it returns a value, or it panics on a nil pointer. -/
inductive Outcome (α : Type) where
  | returned (a : α)
  | panicked
  deriving DecidableEq, Repr

/-- An execution: the calls made to the shared client, in order, and the outcome. -/
structure Exec (α : Type) where
  log : List Event
  outcome : Outcome α

/-- Return a value, calling nothing. -/
def Exec.pure {α : Type} (a : α) : Exec α := ⟨[], .returned a⟩

/-- Run `x`, then `f` on its value; a panic ends the execution. -/
def Exec.bind {α β : Type} (x : Exec α) (f : α → Exec β) : Exec β :=
  match x.outcome with
  | .returned a => ⟨x.log ++ (f a).log, (f a).outcome⟩
  | .panicked => ⟨x.log, .panicked⟩

instance : Monad Exec where
  pure := Exec.pure
  bind := Exec.bind

/-- Call `client.NewRequest` and record the call. -/
def Env.newRequest (e : Env) (method : Method) (uri : String) (body : Body) :
    Exec (Except Err Request) :=
  ⟨[.newRequest method uri body], .returned (e.NewRequest method uri body)⟩

/-- Call `client.DoWithContext` and record the call. -/
def Env.doWithContext (e : Env) (req : Request) (d : Data) : Exec (DoResult d) :=
  ⟨[.doWithContext req d], .returned (e.DoWithContext req d)⟩

/-- Read through a pointer: a nil pointer panics. -/
def deref {α : Type} : Option α → Exec α
  | some a => Exec.pure a
  | none => ⟨[], .panicked⟩

/-! ## net/url: `Values.Encode` -/

/-- Characters `url.QueryEscape` leaves as they are. -/
def unreserved (c : Char) : Bool :=
  c.isAlphanum || c == '-' || c == '_' || c == '.' || c == '~'

/-- Upper-case hexadecimal digit. -/
def hexDigit (n : Nat) : Char :=
  if n < 10 then Char.ofNat (48 + n) else Char.ofNat (55 + n)

/-- One character under `url.QueryEscape`: unreserved characters stay, a space
becomes `+`, every other byte of the UTF-8 encoding becomes `%XX`. -/
def escapeChar (c : Char) : List Char :=
  if unreserved c then [c]
  else if c == ' ' then ['+']
  else (String.utf8EncodeChar c).flatMap
    (fun b => ['%', hexDigit (b.toNat / 16), hexDigit (b.toNat % 16)])

/-- The function `url.QueryEscape`. -/
def QueryEscape (s : String) : String := String.mk (s.data.flatMap escapeChar)

/-- The method `url.Values.Encode`: keys in sorted order, every value of a key as
`key=value`, both escaped, joined by `&`. -/
def Values.Encode (v : Values) : String :=
  "&".intercalate
    ((v.insertionSort (fun a b => a.1 ≤ b.1)).flatMap
      (fun kv => kv.2.map (fun x => QueryEscape kv.1 ++ "=" ++ QueryEscape x)))

/-- Modelled from the spec: `query.Values` of go-querystring on `ListOptions`,
whose declaration is not in `load_balancer.go`: a nil pointer gives no
parameter, and each option is added under its key (`per_page`, `cursor`) only
when it is non-default. -/
def queryValues : Option ListOptions → Except Err Values
  | none => .ok []
  | some o =>
    .ok ((if o.PerPage == 0 then [] else [("per_page", [toString o.PerPage])])
      ++ (if o.Cursor == "" then [] else [("cursor", [o.Cursor])]))

/-! ## The handlers (`load_balancer.go`, lines 177-390) -/

/-- The constant `lbPath`. -/
def lbPath : String := "/v2/load-balancers"

/-- Create a load balancer. -/
def LoadBalancerHandler.Create (e : Env) (createReq : Option LoadBalancerReq) :
    Exec (Option LoadBalancer × Option Response × Option Err) := do
  match ← e.newRequest .POST lbPath (.lbReq createReq) with
  | .error err => return (none, none, some err)
  | .ok req =>
    let lb : Option lbBase := some {}
    let r ← e.doWithContext req (.ptrptr .lb lb)
    match r.err with
    | some err => return (none, r.resp, some err)
    | none =>
      let lb : lbBase ← deref r.post
      return (lb.LoadBalancer, r.resp, none)

/-- Get a load balancer. -/
def LoadBalancerHandler.Get (e : Env) (lbID : String) :
    Exec (Option LoadBalancer × Option Response × Option Err) := do
  let uri := lbPath ++ "/" ++ lbID
  match ← e.newRequest .GET uri .nil with
  | .error err => return (none, none, some err)
  | .ok req =>
    let lb : lbBase := {}
    let r ← e.doWithContext req (.ptr .lb lb)
    match r.err with
    | some err => return (none, r.resp, some err)
    | none =>
      let lb : lbBase := r.post
      return (lb.LoadBalancer, r.resp, none)

/-- Update updates your your load balancer. -/
def LoadBalancerHandler.Update (e : Env) (lbID : String) (updateReq : Option LoadBalancerReq) :
    Exec (Option Err) := do
  let uri := lbPath ++ "/" ++ lbID
  match ← e.newRequest .PATCH uri (.lbReq updateReq) with
  | .error err => return some err
  | .ok req =>
    let r ← e.doWithContext req .nil
    return r.err

/-- Delete a load balancer subscription. -/
def LoadBalancerHandler.Delete (e : Env) (lbID : String) : Exec (Option Err) := do
  let uri := lbPath ++ "/" ++ lbID
  match ← e.newRequest .DELETE uri .nil with
  | .error err => return some err
  | .ok req =>
    let r ← e.doWithContext req .nil
    return r.err

/-- List all load balancer subscriptions on the current account. -/
def LoadBalancerHandler.List (e : Env) (options : Option ListOptions) :
    Exec (Slice LoadBalancer × Option Meta × Option Response × Option Err) := do
  match ← e.newRequest .GET lbPath .nil with
  | .error err => return ([], none, none, some err)
  | .ok req =>
    match e.queryValues options with
    | .error err => return ([], none, none, some err)
    | .ok newValues =>
      let req := { req with URL := { req.URL with RawQuery := newValues.Encode } }
      let lbs : Option lbsBase := some {}
      let r ← e.doWithContext req (.ptrptr .lbs lbs)
      match r.err with
      | some err => return ([], none, r.resp, some err)
      | none =>
        let lbs : lbsBase ← deref r.post
        return (lbs.LoadBalancers, lbs.Meta, r.resp, none)

/-- CreateForwardingRule will create a new forwarding rule for your load
balancer subscription. -/
def LoadBalancerHandler.CreateForwardingRule (e : Env) (lbID : String)
    (rule : Option ForwardingRule) :
    Exec (Option ForwardingRule × Option Response × Option Err) := do
  let uri := lbPath ++ "/" ++ lbID ++ "/forwarding-rules"
  match ← e.newRequest .POST uri (.rule rule) with
  | .error err => return (none, none, some err)
  | .ok req =>
    let fwRule : lbRuleBase := {}
    let r ← e.doWithContext req (.ptr .rule fwRule)
    match r.err with
    | some err => return (none, r.resp, some err)
    | none =>
      let fwRule : lbRuleBase := r.post
      return (fwRule.ForwardingRule, r.resp, none)

/-- GetForwardingRule will get a forwarding rule from your load balancer
subscription. -/
def LoadBalancerHandler.GetForwardingRule (e : Env) (lbID ruleID : String) :
    Exec (Option ForwardingRule × Option Response × Option Err) := do
  let uri := lbPath ++ "/" ++ lbID ++ "/forwarding-rules/" ++ ruleID
  match ← e.newRequest .GET uri .nil with
  | .error err => return (none, none, some err)
  | .ok req =>
    let fwRule : lbRuleBase := {}
    let r ← e.doWithContext req (.ptr .rule fwRule)
    match r.err with
    | some err => return (none, r.resp, some err)
    | none =>
      let fwRule : lbRuleBase := r.post
      return (fwRule.ForwardingRule, r.resp, none)

/-- ListForwardingRules lists all forwarding rules for a load balancer
subscription. -/
def LoadBalancerHandler.ListForwardingRules (e : Env) (lbID : String)
    (options : Option ListOptions) :
    Exec (Slice ForwardingRule × Option Meta × Option Response × Option Err) := do
  let uri := lbPath ++ "/" ++ lbID ++ "/forwarding-rules"
  match ← e.newRequest .GET uri .nil with
  | .error err => return ([], none, none, some err)
  | .ok req =>
    match e.queryValues options with
    | .error err => return ([], none, none, some err)
    | .ok newValues =>
      let req := { req with URL := { req.URL with RawQuery := newValues.Encode } }
      let fwRules : Option lbRulesBase := some {}
      let r ← e.doWithContext req (.ptrptr .rules fwRules)
      match r.err with
      | some err => return ([], none, r.resp, some err)
      | none =>
        let fwRules : lbRulesBase ← deref r.post
        return (fwRules.ForwardingRules, fwRules.Meta, r.resp, none)

/-- DeleteForwardingRule removes a forwarding rule from a load balancer
subscription. -/
def LoadBalancerHandler.DeleteForwardingRule (e : Env) (lbID ruleID : String) :
    Exec (Option Err) := do
  let uri := lbPath ++ "/" ++ lbID ++ "/forwarding-rules/" ++ ruleID
  match ← e.newRequest .DELETE uri .nil with
  | .error err => return some err
  | .ok req =>
    let r ← e.doWithContext req .nil
    return r.err

/-- GetFirewallRule will get a firewall rule from your load balancer
subscription. -/
def LoadBalancerHandler.GetFirewallRule (e : Env) (lbID ruleID : String) :
    Exec (Option LBFirewallRule × Option Response × Option Err) := do
  let uri := lbPath ++ "/" ++ lbID ++ "/firewall-rules/" ++ ruleID
  match ← e.newRequest .GET uri .nil with
  | .error err => return (none, none, some err)
  | .ok req =>
    let fwRule : lbFWRuleBase := {}
    let r ← e.doWithContext req (.ptr .fwRule fwRule)
    match r.err with
    | some err => return (none, r.resp, some err)
    | none =>
      let fwRule : lbFWRuleBase := r.post
      return (fwRule.FirewallRule, r.resp, none)

/-- ListFirewallRules lists all firewall rules for a load balancer
subscription. -/
def LoadBalancerHandler.ListFirewallRules (e : Env) (lbID : String)
    (options : Option ListOptions) :
    Exec (Slice LBFirewallRule × Option Meta × Option Response × Option Err) := do
  let uri := lbPath ++ "/" ++ lbID ++ "/firewall-rules"
  match ← e.newRequest .GET uri .nil with
  | .error err => return ([], none, none, some err)
  | .ok req =>
    match e.queryValues options with
    | .error err => return ([], none, none, some err)
    | .ok newValues =>
      let req := { req with URL := { req.URL with RawQuery := newValues.Encode } }
      let fwRules : Option lbFWRulesBase := some {}
      let r ← e.doWithContext req (.ptrptr .fwRules fwRules)
      match r.err with
      | some err => return ([], none, r.resp, some err)
      | none =>
        let fwRules : lbFWRulesBase ← deref r.post
        return (fwRules.FirewallRules, fwRules.Meta, r.resp, none)

/-- DeleteSSL removes the SSL configuration from a load balancer subscription. -/
def LoadBalancerHandler.DeleteSSL (e : Env) (lbID : String) : Exec (Option Err) := do
  let uri := lbPath ++ "/" ++ lbID ++ "/ssl"
  match ← e.newRequest .DELETE uri .nil with
  | .error err => return some err
  | .ok req =>
    let r ← e.doWithContext req .nil
    return r.err

/-- DeleteAutoSSL removes the AutoSSL configuration from a load balancer
subscription. -/
def LoadBalancerHandler.DeleteAutoSSL (e : Env) (lbID : String) : Exec (Option Err) := do
  let uri := lbPath ++ "/" ++ lbID ++ "/auto_ssl"
  match ← e.newRequest .DELETE uri .nil with
  | .error err => return some err
  | .ok req =>
    let r ← e.doWithContext req .nil
    return r.err

/-! ## All operations at once -/

/-- One call of the load-balancer service: the operation and its arguments. -/
inductive Op where
  | Create (createReq : Option LoadBalancerReq)
  | Get (lbID : String)
  | Update (lbID : String) (updateReq : Option LoadBalancerReq)
  | Delete (lbID : String)
  | DeleteSSL (lbID : String)
  | DeleteAutoSSL (lbID : String)
  | List (options : Option ListOptions)
  | CreateForwardingRule (lbID : String) (rule : Option ForwardingRule)
  | GetForwardingRule (lbID ruleID : String)
  | DeleteForwardingRule (lbID ruleID : String)
  | ListForwardingRules (lbID : String) (options : Option ListOptions)
  | ListFirewallRules (lbID : String) (options : Option ListOptions)
  | GetFirewallRule (lbID ruleID : String)

/-- The return values of an operation, one shape per signature of
`LoadBalancerService`. -/
inductive Result where
  | loadBalancer (v : Option LoadBalancer) (resp : Option Response) (err : Option Err)
  | loadBalancers (v : Slice LoadBalancer) (m : Option Meta) (resp : Option Response)
      (err : Option Err)
  | forwardingRule (v : Option ForwardingRule) (resp : Option Response) (err : Option Err)
  | forwardingRules (v : Slice ForwardingRule) (m : Option Meta) (resp : Option Response)
      (err : Option Err)
  | firewallRule (v : Option LBFirewallRule) (resp : Option Response) (err : Option Err)
  | firewallRules (v : Slice LBFirewallRule) (m : Option Meta) (resp : Option Response)
      (err : Option Err)
  | error (err : Option Err)
  deriving DecidableEq, Repr

/-- Apply a function to the value an execution returns. -/
def Exec.map {α β : Type} (f : α → β) (x : Exec α) : Exec β :=
  ⟨x.log, match x.outcome with
    | .returned a => .returned (f a)
    | .panicked => .panicked⟩

/-- Run the handler of an operation. -/
def Op.run (e : Env) : Op → Exec Result
  | .Create createReq =>
    (LoadBalancerHandler.Create e createReq).map (fun r => .loadBalancer r.1 r.2.1 r.2.2)
  | .Get lbID =>
    (LoadBalancerHandler.Get e lbID).map (fun r => .loadBalancer r.1 r.2.1 r.2.2)
  | .Update lbID updateReq => (LoadBalancerHandler.Update e lbID updateReq).map .error
  | .Delete lbID => (LoadBalancerHandler.Delete e lbID).map .error
  | .DeleteSSL lbID => (LoadBalancerHandler.DeleteSSL e lbID).map .error
  | .DeleteAutoSSL lbID => (LoadBalancerHandler.DeleteAutoSSL e lbID).map .error
  | .List options =>
    (LoadBalancerHandler.List e options).map
      (fun r => .loadBalancers r.1 r.2.1 r.2.2.1 r.2.2.2)
  | .CreateForwardingRule lbID rule =>
    (LoadBalancerHandler.CreateForwardingRule e lbID rule).map
      (fun r => .forwardingRule r.1 r.2.1 r.2.2)
  | .GetForwardingRule lbID ruleID =>
    (LoadBalancerHandler.GetForwardingRule e lbID ruleID).map
      (fun r => .forwardingRule r.1 r.2.1 r.2.2)
  | .DeleteForwardingRule lbID ruleID =>
    (LoadBalancerHandler.DeleteForwardingRule e lbID ruleID).map .error
  | .ListForwardingRules lbID options =>
    (LoadBalancerHandler.ListForwardingRules e lbID options).map
      (fun r => .forwardingRules r.1 r.2.1 r.2.2.1 r.2.2.2)
  | .ListFirewallRules lbID options =>
    (LoadBalancerHandler.ListFirewallRules e lbID options).map
      (fun r => .firewallRules r.1 r.2.1 r.2.2.1 r.2.2.2)
  | .GetFirewallRule lbID ruleID =>
    (LoadBalancerHandler.GetFirewallRule e lbID ruleID).map
      (fun r => .firewallRule r.1 r.2.1 r.2.2)

/-- Method each handler passes to `NewRequest`. -/
def Op.method : Op → Method
  | .Create _ => .POST
  | .Get _ => .GET
  | .Update _ _ => .PATCH
  | .Delete _ => .DELETE
  | .DeleteSSL _ => .DELETE
  | .DeleteAutoSSL _ => .DELETE
  | .List _ => .GET
  | .CreateForwardingRule _ _ => .POST
  | .GetForwardingRule _ _ => .GET
  | .DeleteForwardingRule _ _ => .DELETE
  | .ListForwardingRules _ _ => .GET
  | .ListFirewallRules _ _ => .GET
  | .GetFirewallRule _ _ => .GET

/-- Path each handler passes to `NewRequest`. -/
def Op.uri : Op → String
  | .Create _ => lbPath
  | .Get lbID => lbPath ++ "/" ++ lbID
  | .Update lbID _ => lbPath ++ "/" ++ lbID
  | .Delete lbID => lbPath ++ "/" ++ lbID
  | .DeleteSSL lbID => lbPath ++ "/" ++ lbID ++ "/ssl"
  | .DeleteAutoSSL lbID => lbPath ++ "/" ++ lbID ++ "/auto_ssl"
  | .List _ => lbPath
  | .CreateForwardingRule lbID _ => lbPath ++ "/" ++ lbID ++ "/forwarding-rules"
  | .GetForwardingRule lbID ruleID => lbPath ++ "/" ++ lbID ++ "/forwarding-rules/" ++ ruleID
  | .DeleteForwardingRule lbID ruleID =>
    lbPath ++ "/" ++ lbID ++ "/forwarding-rules/" ++ ruleID
  | .ListForwardingRules lbID _ => lbPath ++ "/" ++ lbID ++ "/forwarding-rules"
  | .ListFirewallRules lbID _ => lbPath ++ "/" ++ lbID ++ "/firewall-rules"
  | .GetFirewallRule lbID ruleID => lbPath ++ "/" ++ lbID ++ "/firewall-rules/" ++ ruleID

/-- Body each handler passes to `NewRequest`. -/
def Op.body : Op → Body
  | .Create createReq => .lbReq createReq
  | .Update _ updateReq => .lbReq updateReq
  | .CreateForwardingRule _ rule => .rule rule
  | _ => .nil

/-- The pagination options of a list operation (`none` for the other operations). -/
def Op.options : Op → Option (Option ListOptions)
  | .List options => some options
  | .ListForwardingRules _ options => some options
  | .ListFirewallRules _ options => some options
  | _ => none

/-- Whether building the request succeeds: `NewRequest` returns no error and,
for a list operation, neither does the encoding of the query options. -/
def Op.constructed (e : Env) (op : Op) : Bool :=
  (e.NewRequest op.method op.uri op.body).isOk &&
    (match op.options with
      | some options => (e.queryValues options).isOk
      | none => true)

/-- The result of an operation that failed with `err`: no decoded value, no
meta, the given raw response and the error; the error alone for the five
operations that return only an error. -/
def Op.failure (op : Op) (resp : Option Response) (err : Err) : Result :=
  match op with
  | .Create _ => .loadBalancer none resp (some err)
  | .Get _ => .loadBalancer none resp (some err)
  | .Update _ _ => .error (some err)
  | .Delete _ => .error (some err)
  | .DeleteSSL _ => .error (some err)
  | .DeleteAutoSSL _ => .error (some err)
  | .List _ => .loadBalancers [] none resp (some err)
  | .CreateForwardingRule _ _ => .forwardingRule none resp (some err)
  | .GetForwardingRule _ _ => .forwardingRule none resp (some err)
  | .DeleteForwardingRule _ _ => .error (some err)
  | .ListForwardingRules _ _ => .forwardingRules [] none resp (some err)
  | .ListFirewallRules _ _ => .firewallRules [] none resp (some err)
  | .GetFirewallRule _ _ => .firewallRule none resp (some err)

/-! ## Concrete clients -/

/-- Modelled from the spec: a `NewRequest` that succeeds; the shared client
builds the request for the given method and path and attaches the body. -/
def buildRequest (method : Method) (uri : String) (body : Body) : Except Err Request :=
  .ok { Method := method, URL := { Path := uri, RawQuery := "" }, Body := body }

/-- Modelled from the spec: the JSON decoding inside `DoWithContext`, which is
not in `load_balancer.go`, on a body that is the JSON literal `null`. The spec
leaves JSON marshalling to the shared client and the envelopes are plain
structs with json tags, so the rules of encoding/json apply: `null` writes
nothing into a struct, and sets a pointer reached through `data` to nil. -/
def decodeNull : (d : Data) → d.Post
  | .nil => ()
  | .ptr _ v => v
  | .ptrptr _ _ => none

/-- Modelled from the spec: the JSON decoding inside `DoWithContext`, which is
not in `load_balancer.go`, on a body that is an object without any key of the
envelope, such as the empty object. By the rules of encoding/json a struct
field whose key is absent keeps its value and no error is reported; a nil
pointer reached through `data` is first pointed to a fresh zero value. -/
def decodeEmptyObject : (d : Data) → d.Post
  | .nil => ()
  | .ptr _ v => v
  | .ptrptr k p => some (p.getD k.zero)

/-- Modelled from the spec: the shared client when the service answers every
request with status 200 and the body `null`. -/
def nullBodyEnv : Env where
  NewRequest := buildRequest
  DoWithContext := fun _ d => ⟨some ⟨200, "null"⟩, none, decodeNull d⟩
  queryValues := queryValues

/-- Modelled from the spec: the shared client when the service answers every
request with status 200 and an empty JSON object. -/
def emptyObjectEnv : Env where
  NewRequest := buildRequest
  DoWithContext := fun _ d => ⟨some ⟨200, "\x7b\x7d"⟩, none, decodeEmptyObject d⟩
  queryValues := queryValues

/-- Modelled from the spec: the shared client when the service answers every
request with status 404; the body becomes the error and nothing is decoded. -/
def notFoundEnv : Env where
  NewRequest := buildRequest
  DoWithContext := fun _ d =>
    ⟨some ⟨404, "not found"⟩, some ⟨"not found"⟩, decodeEmptyObject d⟩
  queryValues := queryValues

/-- A shared client whose `NewRequest` fails. -/
def badRequestEnv : Env where
  NewRequest := fun _ _ _ => .error ⟨"invalid request"⟩
  DoWithContext := fun _ d => ⟨some ⟨200, "\x7b\x7d"⟩, none, decodeEmptyObject d⟩
  queryValues := queryValues

/-- An environment in which the encoding of the query options fails. -/
def badQueryEnv : Env where
  NewRequest := buildRequest
  DoWithContext := fun _ d => ⟨some ⟨200, "\x7b\x7d"⟩, none, decodeEmptyObject d⟩
  queryValues := fun _ => .error ⟨"query: cannot encode"⟩

/-! ## What one call does, in closed form -/

/-- The `data` argument each handler passes to `DoWithContext`: nil for the
operations that return only an error, the envelope pointer for Get,
CreateForwardingRule, GetForwardingRule and GetFirewallRule, and the address of
the envelope pointer for Create and the three list operations. -/
def Op.data : Op → Data
  | .Create _ => .ptrptr .lb (some {})
  | .Get _ => .ptr .lb {}
  | .Update _ _ => .nil
  | .Delete _ => .nil
  | .DeleteSSL _ => .nil
  | .DeleteAutoSSL _ => .nil
  | .List _ => .ptrptr .lbs (some {})
  | .CreateForwardingRule _ _ => .ptr .rule {}
  | .GetForwardingRule _ _ => .ptr .rule {}
  | .DeleteForwardingRule _ _ => .nil
  | .ListForwardingRules _ _ => .ptrptr .rules (some {})
  | .ListFirewallRules _ _ => .ptrptr .fwRules (some {})
  | .GetFirewallRule _ _ => .ptr .fwRule {}

/-- The content of an envelope, returned with the raw response and a nil error. -/
def EnvKind.unwrap : (k : EnvKind) → k.T → Option Response → Result
  | .lbs, env, resp => .loadBalancers env.LoadBalancers env.Meta resp none
  | .lb, env, resp => .loadBalancer env.LoadBalancer resp none
  | .rules, env, resp => .forwardingRules env.ForwardingRules env.Meta resp none
  | .rule, env, resp => .forwardingRule env.ForwardingRule resp none
  | .fwRules, env, resp => .firewallRules env.FirewallRules env.Meta resp none
  | .fwRule, env, resp => .firewallRule env.FirewallRule resp none

/-- What a handler does after `DoWithContext` returned no error: it reads the
envelope behind `data`; through a nil envelope pointer that read panics. -/
def Data.unwrap : (d : Data) → Option Response → d.Post → Outcome Result
  | .nil, _, _ => .returned (.error none)
  | .ptr k _, resp, env => .returned (k.unwrap env resp)
  | .ptrptr k _, resp, some env => .returned (k.unwrap env resp)
  | .ptrptr _ _, _, none => .panicked

/-- The request a handler sends: the one `NewRequest` built, with the encoded
query options as raw query for a list operation. -/
def Op.send (e : Env) (op : Op) (req : Request) : Request :=
  match op.options with
  | none => req
  | some options =>
    match e.queryValues options with
    | .ok newValues => { req with URL := { req.URL with RawQuery := newValues.Encode } }
    | .error _ => req

/-- The error of the query encoding, if it fails (list operations only). -/
def Op.queryError (e : Env) (op : Op) : Option Err :=
  match op.options with
  | none => none
  | some options =>
    match e.queryValues options with
    | .ok _ => none
    | .error err => some err

/-- One call in closed form: the calls made and the outcome, by cases on what
the shared client and the query encoder answer. -/
def Op.trace (e : Env) (op : Op) : Exec Result :=
  match e.NewRequest op.method op.uri op.body with
  | .error err => ⟨[.newRequest op.method op.uri op.body], .returned (op.failure none err)⟩
  | .ok req =>
    match op.queryError e with
    | some err => ⟨[.newRequest op.method op.uri op.body], .returned (op.failure none err)⟩
    | none =>
      ⟨[.newRequest op.method op.uri op.body, .doWithContext (op.send e req) op.data],
        match (e.DoWithContext (op.send e req) op.data).err with
        | some err => .returned (op.failure (e.DoWithContext (op.send e req) op.data).resp err)
        | none =>
          op.data.unwrap (e.DoWithContext (op.send e req) op.data).resp
            (e.DoWithContext (op.send e req) op.data).post⟩

/-- The result of an operation that succeeded without any decoded content: a
nil record (an empty sequence and a nil meta for a list operation), the raw
response and a nil error. -/
def Op.emptyResult (op : Op) (resp : Option Response) : Result :=
  match op with
  | .Create _ => .loadBalancer none resp none
  | .Get _ => .loadBalancer none resp none
  | .Update _ _ => .error none
  | .Delete _ => .error none
  | .DeleteSSL _ => .error none
  | .DeleteAutoSSL _ => .error none
  | .List _ => .loadBalancers [] none resp none
  | .CreateForwardingRule _ _ => .forwardingRule none resp none
  | .GetForwardingRule _ _ => .forwardingRule none resp none
  | .DeleteForwardingRule _ _ => .error none
  | .ListForwardingRules _ _ => .forwardingRules [] none resp none
  | .ListFirewallRules _ _ => .firewallRules [] none resp none
  | .GetFirewallRule _ _ => .firewallRule none resp none

/-! ## Example inputs -/

/-- A forwarding rule whose caller filled in the rule ID. -/
def ruleWithID : ForwardingRule :=
  { RuleID := "rule-1", FrontendProtocol := "http", FrontendPort := 80,
    BackendProtocol := "http", BackendPort := 8080 }

/-- The same forwarding rule with the rule ID left empty. -/
def ruleWithoutID : ForwardingRule :=
  { RuleID := "", FrontendProtocol := "http", FrontendPort := 80,
    BackendProtocol := "http", BackendPort := 8080 }

/-- A load-balancer request in which only AutoSSL is present, with every field
of it unset. -/
def reqWithEmptyAutoSSL : LoadBalancerReq := { AutoSSL := some {} }

/-- The 200 response of `nullBodyEnv`. -/
def nullResponse : Response := ⟨200, "null"⟩

/-- The 200 response of `emptyObjectEnv`. -/
def emptyObjectResponse : Response := ⟨200, "\x7b\x7d"⟩

/-! ## Theorems -/

/-- Every handler runs as its closed form says. -/
theorem Op.run_eq_trace (e : Env) (op : Op) : op.run e = op.trace e := by
  cases op <;>
    simp only [Op.run, Op.trace, Op.send, Op.queryError, Op.data, Op.failure, Op.method, Op.uri,
      Op.body, Op.options, Exec.map,
      LoadBalancerHandler.Create, LoadBalancerHandler.Get, LoadBalancerHandler.Update,
      LoadBalancerHandler.Delete, LoadBalancerHandler.DeleteSSL,
      LoadBalancerHandler.DeleteAutoSSL, LoadBalancerHandler.List,
      LoadBalancerHandler.CreateForwardingRule, LoadBalancerHandler.GetForwardingRule,
      LoadBalancerHandler.DeleteForwardingRule, LoadBalancerHandler.ListForwardingRules,
      LoadBalancerHandler.ListFirewallRules, LoadBalancerHandler.GetFirewallRule,
      Env.newRequest, Env.doWithContext, bind, Exec.bind, pure, Exec.pure, deref] <;>
    generalize e.NewRequest _ _ _ = nr <;>
    cases nr <;> simp only [] <;>
    (repeat' split) <;> (try simp_all [Data.unwrap, EnvKind.unwrap])
  all_goals subst_vars
  all_goals simp_all [Data.unwrap, EnvKind.unwrap]

/-- The log of a call is the `NewRequest` call alone when building the request
fails, and the `NewRequest` call followed by one `DoWithContext` call otherwise. -/
theorem Op.log_cases (e : Env) (op : Op) :
    (op.constructed e = false ∧
      (op.run e).log = [.newRequest op.method op.uri op.body]) ∨
    (op.constructed e = true ∧ ∃ req,
      e.NewRequest op.method op.uri op.body = .ok req ∧
      (op.run e).log = [.newRequest op.method op.uri op.body,
        .doWithContext (op.send e req) op.data]) := by
  rw [Op.run_eq_trace]
  unfold Op.trace Op.constructed Op.queryError
  cases hnr : e.NewRequest op.method op.uri op.body with
  | error err => simp [Except.isOk, Except.toBool]
  | ok req =>
    cases hop : op.options with
    | none => simp [Except.isOk, Except.toBool]
    | some options =>
      cases hq : e.queryValues options <;> simp [hq, Except.isOk, Except.toBool]

/-- The events of a log that are `NewRequest` calls, for the two shapes a log has. -/
theorem Op.log_newRequests (e : Env) (op : Op) :
    (op.run e).log.filter Event.isNewRequest = [.newRequest op.method op.uri op.body] := by
  rcases Op.log_cases e op with ⟨_, h⟩ | ⟨_, req, _, h⟩ <;>
    simp [h, Event.isNewRequest]

/-- C1: every operation builds its request with the method and path of the
operation table, the identifiers being inserted verbatim: the only
`NewRequest` call of each handler has exactly that method and path (and the
body shown). In particular Get of "abc" builds GET /v2/load-balancers/abc. -/
theorem request_method_and_path (e : Env) (lbID ruleID : String)
    (createReq updateReq : Option LoadBalancerReq) (rule : Option ForwardingRule)
    (options : Option ListOptions) :
    (LoadBalancerHandler.Create e createReq).log.filter Event.isNewRequest
      = [.newRequest .POST "/v2/load-balancers" (.lbReq createReq)] ∧
    (LoadBalancerHandler.List e options).log.filter Event.isNewRequest
      = [.newRequest .GET "/v2/load-balancers" .nil] ∧
    (LoadBalancerHandler.Get e lbID).log.filter Event.isNewRequest
      = [.newRequest .GET ("/v2/load-balancers/" ++ lbID) .nil] ∧
    (LoadBalancerHandler.Update e lbID updateReq).log.filter Event.isNewRequest
      = [.newRequest .PATCH ("/v2/load-balancers/" ++ lbID) (.lbReq updateReq)] ∧
    (LoadBalancerHandler.Delete e lbID).log.filter Event.isNewRequest
      = [.newRequest .DELETE ("/v2/load-balancers/" ++ lbID) .nil] ∧
    (LoadBalancerHandler.DeleteSSL e lbID).log.filter Event.isNewRequest
      = [.newRequest .DELETE ("/v2/load-balancers/" ++ lbID ++ "/ssl") .nil] ∧
    (LoadBalancerHandler.DeleteAutoSSL e lbID).log.filter Event.isNewRequest
      = [.newRequest .DELETE ("/v2/load-balancers/" ++ lbID ++ "/auto_ssl") .nil] ∧
    (LoadBalancerHandler.CreateForwardingRule e lbID rule).log.filter Event.isNewRequest
      = [.newRequest .POST ("/v2/load-balancers/" ++ lbID ++ "/forwarding-rules")
          (.rule rule)] ∧
    (LoadBalancerHandler.ListForwardingRules e lbID options).log.filter Event.isNewRequest
      = [.newRequest .GET ("/v2/load-balancers/" ++ lbID ++ "/forwarding-rules") .nil] ∧
    (LoadBalancerHandler.GetForwardingRule e lbID ruleID).log.filter Event.isNewRequest
      = [.newRequest .GET
          ("/v2/load-balancers/" ++ lbID ++ "/forwarding-rules/" ++ ruleID) .nil] ∧
    (LoadBalancerHandler.DeleteForwardingRule e lbID ruleID).log.filter Event.isNewRequest
      = [.newRequest .DELETE
          ("/v2/load-balancers/" ++ lbID ++ "/forwarding-rules/" ++ ruleID) .nil] ∧
    (LoadBalancerHandler.ListFirewallRules e lbID options).log.filter Event.isNewRequest
      = [.newRequest .GET ("/v2/load-balancers/" ++ lbID ++ "/firewall-rules") .nil] ∧
    (LoadBalancerHandler.GetFirewallRule e lbID ruleID).log.filter Event.isNewRequest
      = [.newRequest .GET
          ("/v2/load-balancers/" ++ lbID ++ "/firewall-rules/" ++ ruleID) .nil] ∧
    (LoadBalancerHandler.Get e "abc").log.filter Event.isNewRequest
      = [.newRequest .GET "/v2/load-balancers/abc" .nil] := by
  have hslash : ∀ s : String, lbPath ++ "/" ++ s = "/v2/load-balancers/" ++ s := by
    intro s
    rw [String.append_assoc]
    rfl
  refine ⟨?_, ?_, ?_, ?_, ?_, ?_, ?_, ?_, ?_, ?_, ?_, ?_, ?_, ?_⟩
  · exact Op.log_newRequests e (.Create createReq)
  · exact Op.log_newRequests e (.List options)
  · rw [← hslash]; exact Op.log_newRequests e (.Get lbID)
  · rw [← hslash]; exact Op.log_newRequests e (.Update lbID updateReq)
  · rw [← hslash]; exact Op.log_newRequests e (.Delete lbID)
  · rw [← hslash]; exact Op.log_newRequests e (.DeleteSSL lbID)
  · rw [← hslash]; exact Op.log_newRequests e (.DeleteAutoSSL lbID)
  · rw [← hslash]; exact Op.log_newRequests e (.CreateForwardingRule lbID rule)
  · rw [← hslash]; exact Op.log_newRequests e (.ListForwardingRules lbID options)
  · rw [← hslash]; exact Op.log_newRequests e (.GetForwardingRule lbID ruleID)
  · rw [← hslash]; exact Op.log_newRequests e (.DeleteForwardingRule lbID ruleID)
  · rw [← hslash]; exact Op.log_newRequests e (.ListFirewallRules lbID options)
  · rw [← hslash]; exact Op.log_newRequests e (.GetFirewallRule lbID ruleID)
  · exact Op.log_newRequests e (.Get "abc")

/-- C9: a call is a single attempt. Whatever the shared client answers, the
log of a call holds exactly one `NewRequest` call; it holds exactly one
`DoWithContext` call when building the request succeeded (for a list
operation: `NewRequest` and the query encoding) and none when it failed; and
nothing follows the `DoWithContext` call in the log. -/
theorem single_attempt (e : Env) (op : Op) :
    (op.run e).log.countP Event.isNewRequest = 1 ∧
    (op.run e).log.countP Event.isDoWithContext = (if op.constructed e then 1 else 0) ∧
    (∀ (before after : List Event) (req : Request) (d : Data),
      (op.run e).log = before ++ .doWithContext req d :: after → after = []) ∧
    ((op.run e).log = [.newRequest op.method op.uri op.body] ∨
      ∃ req d, (op.run e).log = [.newRequest op.method op.uri op.body, .doWithContext req d]) := by
  rcases Op.log_cases e op with ⟨hc, h⟩ | ⟨hc, req, _, h⟩
  · refine ⟨by simp [h, Event.isNewRequest], by simp [h, hc, Event.isDoWithContext], ?_,
      Or.inl h⟩
    intro before after req d hlog
    rw [h] at hlog
    rcases before with _ | ⟨b, _ | ⟨b2, before⟩⟩ <;> simp at hlog
  · refine ⟨by simp [h, Event.isNewRequest, Event.isDoWithContext],
      by simp [h, hc, Event.isNewRequest, Event.isDoWithContext], ?_, Or.inr ⟨_, _, h⟩⟩
    intro before after req2 d hlog
    rw [h] at hlog
    rcases before with _ | ⟨b, _ | ⟨b2, _ | ⟨b3, before⟩⟩⟩ <;> simp at hlog
    · exact hlog.2.2

/-- Witness of C9: Get against a client that answers, and against a client
whose `NewRequest` fails. -/
theorem single_attempt_witness :
    (Op.run emptyObjectEnv (.Get "abc")).log.countP Event.isNewRequest = 1 ∧
    (Op.run emptyObjectEnv (.Get "abc")).log.countP Event.isDoWithContext = 1 ∧
    (Op.run badRequestEnv (.Get "abc")).log.countP Event.isDoWithContext = 0 ∧
    (Op.run emptyObjectEnv (.Get "abc")).log
      = [.newRequest .GET "/v2/load-balancers/abc" .nil] ++
        .doWithContext ⟨.GET, ⟨"/v2/load-balancers/abc", ""⟩, .nil⟩ (.ptr .lb {}) :: [] ∧
    ([] : List Event) = [] :=
  ⟨(single_attempt emptyObjectEnv (.Get "abc")).1,
    (single_attempt emptyObjectEnv (.Get "abc")).2.1,
    (single_attempt badRequestEnv (.Get "abc")).2.1,
    rfl,
    (single_attempt emptyObjectEnv (.Get "abc")).2.2.1
      [.newRequest .GET "/v2/load-balancers/abc" .nil] []
      ⟨.GET, ⟨"/v2/load-balancers/abc", ""⟩, .nil⟩ (.ptr .lb {}) rfl⟩

/-- A `DoWithContext` call in the log is the one the closed form shows: the
request was built, the query encoding did not fail, and the call carries the
request as sent and the `data` of the operation. -/
theorem Op.mem_log_doWithContext (e : Env) (op : Op) (req : Request) (d : Data)
    (hcall : Event.doWithContext req d ∈ (op.run e).log) :
    ∃ req0, e.NewRequest op.method op.uri op.body = .ok req0 ∧ op.queryError e = none ∧
      req = op.send e req0 ∧ d = op.data := by
  rw [Op.run_eq_trace] at hcall
  unfold Op.trace at hcall
  cases hnr : e.NewRequest op.method op.uri op.body with
  | error err => simp [hnr] at hcall
  | ok req0 =>
    cases hq : op.queryError e with
    | some err => simp [hnr, hq] at hcall
    | none =>
      simp [hnr, hq] at hcall
      exact ⟨req0, rfl, rfl, hcall.1, hcall.2⟩

/-- The outcome of a call whose request was built and sent. -/
theorem Op.outcome_of_sent (e : Env) (op : Op) (req0 : Request)
    (hnr : e.NewRequest op.method op.uri op.body = .ok req0) (hq : op.queryError e = none) :
    (op.run e).outcome =
      match (e.DoWithContext (op.send e req0) op.data).err with
      | some err => .returned (op.failure (e.DoWithContext (op.send e req0) op.data).resp err)
      | none =>
        op.data.unwrap (e.DoWithContext (op.send e req0) op.data).resp
          (e.DoWithContext (op.send e req0) op.data).post := by
  rw [Op.run_eq_trace]
  unfold Op.trace
  simp [hnr, hq]

/-- C8: a failure to build the request is returned at once. When the
`NewRequest` call of an operation fails with `err`, the operation returns
`err` with no decoded value and a nil raw response (`err` alone for Update,
Delete, DeleteSSL, DeleteAutoSSL and DeleteForwardingRule), and
`DoWithContext` is not called; a list operation returns the same when
`NewRequest` succeeded and the encoding of the query options fails with `err`. -/
theorem construction_failure (e : Env) (op : Op) (err : Err) :
    (e.NewRequest op.method op.uri op.body = .error err →
      (op.run e).outcome = .returned (op.failure none err) ∧
      (op.run e).log = [.newRequest op.method op.uri op.body]) ∧
    (∀ (req : Request) (options : Option ListOptions),
      e.NewRequest op.method op.uri op.body = .ok req →
      op.options = some options → e.queryValues options = .error err →
      (op.run e).outcome = .returned (op.failure none err) ∧
      (op.run e).log = [.newRequest op.method op.uri op.body]) := by
  constructor
  · intro hnr
    rw [Op.run_eq_trace]
    unfold Op.trace
    simp [hnr]
  · intro req options hnr hop hq
    rw [Op.run_eq_trace]
    unfold Op.trace Op.queryError
    simp [hnr, hop, hq]

/-- Witness of C8: Get with a client whose `NewRequest` fails, and List in an
environment whose query encoding fails. -/
theorem construction_failure_witness :
    (badRequestEnv.NewRequest (Op.Get "abc").method (Op.Get "abc").uri (Op.Get "abc").body
        = .error ⟨"invalid request"⟩ ∧
      (Op.run badRequestEnv (.Get "abc")).outcome
        = .returned (.loadBalancer none none (some ⟨"invalid request"⟩))) ∧
    (badQueryEnv.queryValues none = .error ⟨"query: cannot encode"⟩ ∧
      (Op.run badQueryEnv (.List none)).outcome
        = .returned (.loadBalancers [] none none (some ⟨"query: cannot encode"⟩))) :=
  ⟨⟨rfl, ((construction_failure badRequestEnv (.Get "abc") ⟨"invalid request"⟩).1 rfl).1⟩,
    ⟨rfl, ((construction_failure badQueryEnv (.List none) ⟨"query: cannot encode"⟩).2
      _ none rfl rfl rfl).1⟩⟩

/-- C3: a failure reported by `DoWithContext` is passed on as it is. Whenever
the `DoWithContext` call of an operation returns an error `err`, together with
some raw response, the operation returns that same `err`, that same raw
response, and no decoded value: a nil record, or an empty sequence and a nil
meta for the list operations (`err` alone for the five operations that return
only an error). -/
theorem transport_failure (e : Env) (op : Op) (req : Request) (d : Data) (err : Err)
    (hcall : Event.doWithContext req d ∈ (op.run e).log)
    (herr : (e.DoWithContext req d).err = some err) :
    (op.run e).outcome = .returned (op.failure (e.DoWithContext req d).resp err) := by
  obtain ⟨req0, hnr, hq, rfl, rfl⟩ := Op.mem_log_doWithContext e op req d hcall
  rw [Op.outcome_of_sent e op req0 hnr hq, herr]

/-- Witness of C3: Get and List against a service that answers 404. -/
theorem transport_failure_witness :
    (notFoundEnv.DoWithContext ⟨.GET, ⟨"/v2/load-balancers/abc", ""⟩, .nil⟩ (.ptr .lb {})).err
      = some ⟨"not found"⟩ ∧
    (Op.run notFoundEnv (.Get "abc")).outcome
      = .returned (.loadBalancer none (some ⟨404, "not found"⟩) (some ⟨"not found"⟩)) ∧
    (Op.run notFoundEnv (.List none)).outcome
      = .returned (.loadBalancers [] none (some ⟨404, "not found"⟩) (some ⟨"not found"⟩)) :=
  ⟨rfl, transport_failure notFoundEnv (.Get "abc")
      ⟨.GET, ⟨"/v2/load-balancers/abc", ""⟩, .nil⟩ (.ptr .lb {}) ⟨"not found"⟩
      (List.Mem.tail _ (List.Mem.head _)) rfl,
    transport_failure notFoundEnv (.List none)
      ⟨.GET, ⟨"/v2/load-balancers", ""⟩, .nil⟩ (.ptrptr .lbs (some {})) ⟨"not found"⟩
      (List.Mem.tail _ (List.Mem.head _)) rfl⟩

/-- After a `DoWithContext` call that returned no error, the operation reads
the envelope behind `data`: it returns the content of the envelope, the raw
response and a nil error, unless the envelope pointer handed over by address
has become nil, in which case it panics. -/
theorem Op.outcome_on_success (e : Env) (op : Op) (req : Request) (d : Data)
    (hcall : Event.doWithContext req d ∈ (op.run e).log)
    (herr : (e.DoWithContext req d).err = none) :
    (op.run e).outcome = d.unwrap (e.DoWithContext req d).resp (e.DoWithContext req d).post := by
  obtain ⟨req0, hnr, hq, rfl, rfl⟩ := Op.mem_log_doWithContext e op req d hcall
  rw [Op.outcome_of_sent e op req0 hnr hq, herr]

/-- An operation that handed `DoWithContext` the address of its envelope
pointer panics when the call returns no error and leaves that pointer nil. -/
theorem Op.panics_on_nil_envelope (e : Env) (op : Op) (req : Request) (k : EnvKind)
    (p : Option k.T)
    (hcall : Event.doWithContext req (.ptrptr k p) ∈ (op.run e).log)
    (herr : (e.DoWithContext req (.ptrptr k p)).err = none)
    (hnil : (e.DoWithContext req (.ptrptr k p)).post = none) :
    (op.run e).outcome = .panicked := by
  rw [Op.outcome_on_success e op req _ hcall herr, hnil]
  rfl

/-- C2 at a 200 response whose body is `null`: for Create and for List,
`NewRequest` succeeds, `DoWithContext` returns the raw response and no error,
and the operation panics instead of returning the content of the envelope, the
raw response and a nil error. -/
theorem unwrap_null_body (createReq : Option LoadBalancerReq) (options : Option ListOptions) :
    nullBodyEnv.NewRequest .POST "/v2/load-balancers" (.lbReq createReq)
      = .ok ⟨.POST, ⟨"/v2/load-balancers", ""⟩, .lbReq createReq⟩ ∧
    (nullBodyEnv.DoWithContext ⟨.POST, ⟨"/v2/load-balancers", ""⟩, .lbReq createReq⟩
      (.ptrptr .lb (some {}))).err = none ∧
    (nullBodyEnv.DoWithContext ⟨.POST, ⟨"/v2/load-balancers", ""⟩, .lbReq createReq⟩
      (.ptrptr .lb (some {}))).resp = some nullResponse ∧
    (Op.run nullBodyEnv (.Create createReq)).outcome = .panicked ∧
    (Op.run nullBodyEnv (.List options)).log.countP Event.isDoWithContext = 1 ∧
    (Op.run nullBodyEnv (.List options)).outcome = .panicked :=
  ⟨rfl, rfl, rfl, rfl, by cases options <;> rfl, by cases options <;> rfl⟩

/-- C10 at a 200 response whose body is `null`: the four operations that hand
`DoWithContext` the address of the envelope pointer (Create, List,
ListForwardingRules, ListFirewallRules) find the pointer nil and panic when
they read the envelope, while the four that hand over the envelope pointer
itself (Get, CreateForwardingRule, GetForwardingRule, GetFirewallRule) return
a nil record, the raw response and a nil error. -/
theorem address_of_envelope_null_body (lbID ruleID : String)
    (createReq : Option LoadBalancerReq) (rule : Option ForwardingRule)
    (options : Option ListOptions) :
    (LoadBalancerHandler.Create nullBodyEnv createReq).outcome = .panicked ∧
    (LoadBalancerHandler.List nullBodyEnv options).outcome = .panicked ∧
    (LoadBalancerHandler.ListForwardingRules nullBodyEnv lbID options).outcome = .panicked ∧
    (LoadBalancerHandler.ListFirewallRules nullBodyEnv lbID options).outcome = .panicked ∧
    (LoadBalancerHandler.Get nullBodyEnv lbID).outcome
      = .returned (none, some nullResponse, none) ∧
    (LoadBalancerHandler.CreateForwardingRule nullBodyEnv lbID rule).outcome
      = .returned (none, some nullResponse, none) ∧
    (LoadBalancerHandler.GetForwardingRule nullBodyEnv lbID ruleID).outcome
      = .returned (none, some nullResponse, none) ∧
    (LoadBalancerHandler.GetFirewallRule nullBodyEnv lbID ruleID).outcome
      = .returned (none, some nullResponse, none) :=
  ⟨rfl, by cases options <;> rfl, by cases options <;> rfl, by cases options <;> rfl,
    rfl, rfl, rfl, rfl⟩

/-- C5, counterexample: the service answers 200 with an empty JSON object,
which has none of the envelope keys; `DoWithContext` reports no error, and Get
returns a nil record with a nil error, List an empty sequence with a nil
error. -/
theorem missing_envelope_key_counterexample :
    (emptyObjectEnv.DoWithContext ⟨.GET, ⟨"/v2/load-balancers/abc", ""⟩, .nil⟩
      (.ptr .lb {})).err = none ∧
    (LoadBalancerHandler.Get emptyObjectEnv "abc").outcome
      = .returned (none, some emptyObjectResponse, none) ∧
    (LoadBalancerHandler.List emptyObjectEnv none).outcome
      = .returned ([], none, some emptyObjectResponse, none) :=
  ⟨rfl, rfl, rfl⟩

/-- C5, amended: a response without the expected envelope key is not turned
into an error by the handlers. Whenever the `DoWithContext` call of an
operation returns no error and has written nothing into the envelope, the
operation returns a nil record (an empty sequence and a nil meta for a list
operation) together with the raw response and a nil error. -/
theorem missing_envelope_key_is_no_error (e : Env) (op : Op) (req : Request) (d : Data)
    (hcall : Event.doWithContext req d ∈ (op.run e).log)
    (herr : (e.DoWithContext req d).err = none)
    (hpost : (e.DoWithContext req d).post = decodeEmptyObject d) :
    (op.run e).outcome = .returned (op.emptyResult (e.DoWithContext req d).resp) := by
  rw [Op.outcome_on_success e op req d hcall herr, hpost]
  obtain ⟨req0, _, _, _, rfl⟩ := Op.mem_log_doWithContext e op req d hcall
  cases op <;> rfl

/-- Witness of C5, amended: Get against the service that answers with an empty
object. -/
theorem missing_envelope_key_is_no_error_witness :
    (emptyObjectEnv.DoWithContext ⟨.GET, ⟨"/v2/load-balancers/abc", ""⟩, .nil⟩
      (.ptr .lb {})).err = none ∧
    (Op.run emptyObjectEnv (.Get "abc")).outcome
      = .returned (.loadBalancer none (some emptyObjectResponse) none) :=
  ⟨rfl, missing_envelope_key_is_no_error emptyObjectEnv (.Get "abc")
    ⟨.GET, ⟨"/v2/load-balancers/abc", ""⟩, .nil⟩ (.ptr .lb {})
    (List.Mem.tail _ (List.Mem.head _)) rfl rfl⟩

/-! ### Keys of serialised records -/

/-- The key of a field is present exactly when the field is not omitted. -/
theorem hasKey_field_append (key : String) (o b : Bool) (v : JSON) (rest : List (String × JSON))
    (k : String) :
    JSON.hasKey (.obj (field key o b v ++ rest)) k
      = ((!(o && b) && k == key) || JSON.hasKey (.obj rest) k) := by
  unfold field JSON.hasKey JSON.keys
  cases o <;> cases b <;> simp [List.contains_cons]

/-- The last field of a record. -/
theorem hasKey_field (key : String) (o b : Bool) (v : JSON) (k : String) :
    JSON.hasKey (.obj (field key o b v)) k = (!(o && b) && k == key) := by
  have h := hasKey_field_append key o b v [] k
  simpa [JSON.hasKey, JSON.keys] using h

/-- The value under the key of a field that is written. -/
theorem get_field_append (key : String) (o b : Bool) (v : JSON) (rest : List (String × JSON))
    (k : String) :
    JSON.get? (.obj (field key o b v ++ rest)) k
      = if !(o && b) && k == key then some v else JSON.get? (.obj rest) k := by
  unfold field JSON.get?
  cases o <;> cases b <;> simp [List.lookup] <;> split <;> simp_all

/-- The value under the key of the last field. -/
theorem get_field (key : String) (o b : Bool) (v : JSON) (k : String) :
    JSON.get? (.obj (field key o b v)) k = if !(o && b) && k == key then some v else none := by
  have h := get_field_append key o b v [] k
  simpa [JSON.get?] using h


/-- C4, counterexample: two forwarding rules that differ only in RuleID.
CreateForwardingRule hands each record unchanged to `NewRequest`; the body of
the first serialises with the key `id`, the body of the second without it, so
the two bodies differ. -/
theorem create_forwarding_rule_id_counterexample :
    ({ ruleWithID with RuleID := "" } = ruleWithoutID) ∧
    (LoadBalancerHandler.CreateForwardingRule emptyObjectEnv "lb1"
        (some ruleWithID)).log.filter Event.isNewRequest
      = [.newRequest .POST "/v2/load-balancers/lb1/forwarding-rules"
          (.rule (some ruleWithID))] ∧
    (Body.rule (some ruleWithID)).marshal
      = some (.obj [("id", .str "rule-1"), ("frontend_protocol", .str "http"),
          ("frontend_port", .num 80), ("backend_protocol", .str "http"),
          ("backend_port", .num 8080)]) ∧
    (Body.rule (some ruleWithoutID)).marshal
      = some (.obj [("frontend_protocol", .str "http"),
          ("frontend_port", .num 80), ("backend_protocol", .str "http"),
          ("backend_port", .num 8080)]) ∧
    ruleWithID.marshal.hasKey "id" = true ∧
    (Body.rule (some ruleWithID)).marshal ≠ (Body.rule (some ruleWithoutID)).marshal := by
  refine ⟨rfl, rfl, rfl, rfl, rfl, ?_⟩
  intro heq
  have hkey := congrArg (fun j => (j.map (fun b => JSON.hasKey b "id"))) heq
  revert hkey
  decide

/-- C4, amended: CreateForwardingRule does not drop a caller-supplied rule ID.
It hands the rule record of the caller unchanged to `NewRequest`; the JSON of
that body has the key `id`, with the RuleID of the caller as its value,
exactly when RuleID is non-empty; and two records that differ only in RuleID
serialise to objects that agree on every key other than `id`. -/
theorem create_forwarding_rule_body (e : Env) (lbID : String) (rule r₁ r₂ : ForwardingRule) :
    (LoadBalancerHandler.CreateForwardingRule e lbID (some rule)).log.filter
        Event.isNewRequest
      = [.newRequest .POST ("/v2/load-balancers/" ++ lbID ++ "/forwarding-rules")
          (.rule (some rule))] ∧
    (Body.rule (some rule)).marshal = some rule.marshal ∧
    (rule.marshal.hasKey "id" = true ↔ rule.RuleID ≠ "") ∧
    (rule.RuleID ≠ "" → rule.marshal.get? "id" = some (.str rule.RuleID)) ∧
    ({ r₁ with RuleID := "" } = { r₂ with RuleID := "" } →
      ∀ k : String, k ≠ "id" → r₁.marshal.get? k = r₂.marshal.get? k) := by
  have hslash : lbPath ++ "/" ++ lbID = "/v2/load-balancers/" ++ lbID := by
    rw [String.append_assoc]
    rfl
  refine ⟨?_, rfl, ?_, ?_, ?_⟩
  · rw [← hslash]; exact Op.log_newRequests e (.CreateForwardingRule lbID (some rule))
  · simp [ForwardingRule.marshal, strField, intField, List.append_assoc, hasKey_field_append,
      hasKey_field]
  · intro hp
    simp [ForwardingRule.marshal, strField, intField, List.append_assoc, get_field_append,
      get_field, hp]
  · intro heq k hk
    have h1 : r₁.FrontendProtocol = r₂.FrontendProtocol := congrArg (·.FrontendProtocol) heq
    have h2 : r₁.FrontendPort = r₂.FrontendPort := congrArg (·.FrontendPort) heq
    have h3 : r₁.BackendProtocol = r₂.BackendProtocol := congrArg (·.BackendProtocol) heq
    have h4 : r₁.BackendPort = r₂.BackendPort := congrArg (·.BackendPort) heq
    simp [ForwardingRule.marshal, strField, intField, List.append_assoc, get_field_append,
      get_field, hk, h1, h2, h3, h4]

/-- Witness of C4, amended: the rule with an ID and the same rule without. -/
theorem create_forwarding_rule_body_witness :
    ruleWithID.RuleID ≠ "" ∧
    ruleWithID.marshal.get? "id" = some (.str "rule-1") ∧
    ruleWithID.marshal.get? "backend_port" = ruleWithoutID.marshal.get? "backend_port" :=
  ⟨by decide,
    (create_forwarding_rule_body emptyObjectEnv "lb1" ruleWithID ruleWithID
      ruleWithoutID).2.2.2.1 (by decide),
    (create_forwarding_rule_body emptyObjectEnv "lb1" ruleWithID ruleWithID
      ruleWithoutID).2.2.2.2 rfl "backend_port" (by decide)⟩

/-- C6, counterexample: an AutoSSL record with every field unset. Its
`domain_zone` field is unset and still has a key in the JSON, with the zero
value: the record serialises to an object with the key `domain_zone`, not to
the empty object, also inside the body of a Create request. -/
theorem unset_fields_counterexample :
    (({} : AutoSSL).DomainZone = "") ∧
    (AutoSSL.marshal {}).hasKey "domain_zone" = true ∧
    AutoSSL.marshal {} = .obj [("domain_zone", .str "")] ∧
    reqWithEmptyAutoSSL.AutoSSL = some {} ∧
    (LoadBalancerHandler.Create emptyObjectEnv (some reqWithEmptyAutoSSL)).log.filter
        Event.isNewRequest
      = [.newRequest .POST "/v2/load-balancers" (.lbReq (some reqWithEmptyAutoSSL))] ∧
    (Body.lbReq (some reqWithEmptyAutoSSL)).marshal
      = some (.obj [("auto_ssl", .obj [("domain_zone", .str "")])]) :=
  ⟨rfl, rfl, rfl, rfl, rfl, rfl⟩

/-- C6, amended: in the JSON body of Create and Update, which is the request
record as the caller passed it, every field left unset (empty string, 0, nil
pointer, empty list) has no key, at the top level and in every nested record
that is present, with one exception: `domain_zone` of a present AutoSSL record
is always written, as the empty string when unset. A request with every field
unset serialises to the empty object, and so does a HealthCheck,
StickySessions, SSL, ForwardingRule or LBFirewallRule with every field unset;
an AutoSSL with every field unset serialises to an object holding only
`domain_zone`. -/
theorem unset_fields_are_omitted (e : Env) (lbID : String) (r : LoadBalancerReq)
    (h : HealthCheck) (s : StickySessions) (c : SSL) (a : AutoSSL) (f : ForwardingRule)
    (w : LBFirewallRule) :
    (LoadBalancerHandler.Create e (some r)).log.filter Event.isNewRequest
      = [.newRequest .POST "/v2/load-balancers" (.lbReq (some r))] ∧
    (LoadBalancerHandler.Update e lbID (some r)).log.filter Event.isNewRequest
      = [.newRequest .PATCH ("/v2/load-balancers/" ++ lbID) (.lbReq (some r))] ∧
    (Body.lbReq (some r)).marshal = some r.marshal ∧
    (r.Region = "" → r.marshal.hasKey "region" = false) ∧
    (r.Label = "" → r.marshal.hasKey "label" = false) ∧
    (r.Instances = [] → r.marshal.hasKey "instances" = false) ∧
    (r.Nodes = 0 → r.marshal.hasKey "nodes" = false) ∧
    (r.HealthCheck = none → r.marshal.hasKey "health_check" = false) ∧
    (r.StickySessions = none → r.marshal.hasKey "sticky_session" = false) ∧
    (r.ForwardingRules = [] → r.marshal.hasKey "forwarding_rules" = false) ∧
    (r.SSL = none → r.marshal.hasKey "ssl" = false) ∧
    (r.AutoSSL = none → r.marshal.hasKey "auto_ssl" = false) ∧
    (r.SSLRedirect = none → r.marshal.hasKey "ssl_redirect" = false) ∧
    (r.HTTP2 = none → r.marshal.hasKey "http2" = false) ∧
    (r.HTTP3 = none → r.marshal.hasKey "http3" = false) ∧
    (r.ProxyProtocol = none → r.marshal.hasKey "proxy_protocol" = false) ∧
    (r.BalancingAlgorithm = "" → r.marshal.hasKey "balancing_algorithm" = false) ∧
    (r.FirewallRules = [] → r.marshal.hasKey "firewall_rules" = false) ∧
    (r.Timeout = 0 → r.marshal.hasKey "timeout" = false) ∧
    (r.VPC = none → r.marshal.hasKey "vpc" = false) ∧
    (r.GlobalRegions = [] → r.marshal.hasKey "global_regions" = false) ∧
    (r.HealthCheck = some h → r.marshal.get? "health_check" = some h.marshal) ∧
    (r.StickySessions = some s → r.marshal.get? "sticky_session" = some s.marshal) ∧
    (r.SSL = some c → r.marshal.get? "ssl" = some c.marshal) ∧
    (r.AutoSSL = some a → r.marshal.get? "auto_ssl" = some a.marshal) ∧
    (r.ForwardingRules ≠ [] →
      r.marshal.get? "forwarding_rules" = some (.arr (r.ForwardingRules.map ForwardingRule.marshal))) ∧
    (r.FirewallRules ≠ [] →
      r.marshal.get? "firewall_rules" = some (.arr (r.FirewallRules.map LBFirewallRule.marshal))) ∧
    (h.Protocol = "" → h.marshal.hasKey "protocol" = false) ∧
    (h.Port = 0 → h.marshal.hasKey "port" = false) ∧
    (h.Path = "" → h.marshal.hasKey "path" = false) ∧
    (h.CheckInterval = 0 → h.marshal.hasKey "check_interval" = false) ∧
    (h.ResponseTimeout = 0 → h.marshal.hasKey "response_timeout" = false) ∧
    (h.UnhealthyThreshold = 0 → h.marshal.hasKey "unhealthy_threshold" = false) ∧
    (h.HealthyThreshold = 0 → h.marshal.hasKey "healthy_threshold" = false) ∧
    (s.CookieName = "" → s.marshal.hasKey "cookie_name" = false) ∧
    (c.PrivateKey = "" → c.marshal.hasKey "private_key" = false) ∧
    (c.Certificate = "" → c.marshal.hasKey "certificate" = false) ∧
    (c.Chain = "" → c.marshal.hasKey "chain" = false) ∧
    (c.PrivateKeyB64 = "" → c.marshal.hasKey "private_key_b64" = false) ∧
    (c.CertificateB64 = "" → c.marshal.hasKey "certificate_b64" = false) ∧
    (c.ChainB64 = "" → c.marshal.hasKey "chain_b64" = false) ∧
    (f.RuleID = "" → f.marshal.hasKey "id" = false) ∧
    (f.FrontendProtocol = "" → f.marshal.hasKey "frontend_protocol" = false) ∧
    (f.FrontendPort = 0 → f.marshal.hasKey "frontend_port" = false) ∧
    (f.BackendProtocol = "" → f.marshal.hasKey "backend_protocol" = false) ∧
    (f.BackendPort = 0 → f.marshal.hasKey "backend_port" = false) ∧
    (w.RuleID = "" → w.marshal.hasKey "id" = false) ∧
    (w.Port = 0 → w.marshal.hasKey "port" = false) ∧
    (w.IPType = "" → w.marshal.hasKey "ip_type" = false) ∧
    (w.Source = "" → w.marshal.hasKey "source" = false) ∧
    (a.DomainSub = "" → a.marshal.hasKey "domain_sub" = false) ∧
    (a.Domain = "" → a.marshal.hasKey "domain" = false) ∧
    a.marshal.hasKey "domain_zone" = true ∧
    a.marshal.get? "domain_zone" = some (.str a.DomainZone) ∧
    LoadBalancerReq.marshal {} = .obj [] ∧
    HealthCheck.marshal {} = .obj [] ∧
    StickySessions.marshal {} = .obj [] ∧
    SSL.marshal {} = .obj [] ∧
    ForwardingRule.marshal {} = .obj [] ∧
    LBFirewallRule.marshal {} = .obj [] ∧
    AutoSSL.marshal {} = .obj [("domain_zone", .str "")] := by
  have hslash : lbPath ++ "/" ++ lbID = "/v2/load-balancers/" ++ lbID := by
    rw [String.append_assoc]
    rfl
  refine ⟨Op.log_newRequests e (.Create (some r)), ?_, rfl, ?_, ?_, ?_, ?_, ?_, ?_, ?_, ?_, ?_, ?_, ?_, ?_, ?_, ?_, ?_, ?_, ?_, ?_, ?_, ?_, ?_, ?_, ?_, ?_, ?_, ?_, ?_, ?_, ?_, ?_, ?_, ?_, ?_, ?_, ?_, ?_, ?_, ?_, ?_, ?_, ?_, ?_, ?_, ?_, ?_, ?_, ?_, ?_, ?_, ?_, ?_, ?_, ?_, ?_, ?_, ?_, ?_, ?_⟩
  · rw [← hslash]; exact Op.log_newRequests e (.Update lbID (some r))
  all_goals first
    | rfl
    | (intro hp
       simp [LoadBalancerReq.marshal, HealthCheck.marshal, StickySessions.marshal, SSL.marshal,
         AutoSSL.marshal, ForwardingRule.marshal, LBFirewallRule.marshal, strField, intField,
         ptrField, sliceField, List.append_assoc, hasKey_field_append, hasKey_field,
         get_field_append, get_field, hp])

/-- Witness of C6, amended: a request with only a label and an empty health
check has neither a `region` key nor, in the health check, a `port` key. -/
theorem unset_fields_are_omitted_witness :
    ({ Label := "web", HealthCheck := some {} : LoadBalancerReq }).marshal
      = .obj [("label", .str "web"), ("health_check", .obj [])] ∧
    ({ Label := "web", HealthCheck := some {} : LoadBalancerReq }).marshal.hasKey "region"
      = false ∧
    ({} : HealthCheck).marshal.hasKey "port" = false :=
  ⟨rfl,
    (unset_fields_are_omitted emptyObjectEnv "abc"
      { Label := "web", HealthCheck := some {} } {} {} {} {} {} {}).2.2.2.1 rfl,
    (unset_fields_are_omitted emptyObjectEnv "abc"
      { Label := "web", HealthCheck := some {} } {} {} {} {} {} {}).2.2.2.2.2.2.2.2.2.2.2.2.2.2.2.2.2.2.2.2.2.2.2.2.2.2.2.2.1 rfl⟩

/-! ### Query string of the list operations -/

/-- Escaping leaves a string of unreserved characters as it is. -/
theorem QueryEscape_unreserved (s : String) (h : ∀ ch ∈ s.data, unreserved ch = true) :
    QueryEscape s = s := by
  have hl : ∀ l : List Char, (∀ ch ∈ l, unreserved ch = true) → l.flatMap escapeChar = l := by
    intro l
    induction l with
    | nil => intro _; rfl
    | cons ch l ih =>
      intro hl
      have hch : unreserved ch = true := hl ch (List.mem_cons_self _ _)
      have htl : ∀ x ∈ l, unreserved x = true := fun x hx => hl x (List.mem_cons_of_mem _ hx)
      simp [List.flatMap_cons, escapeChar, hch, ih htl]
  unfold QueryEscape
  rw [hl s.data h]

/-- The encoded query of a single cursor parameter. -/
theorem Encode_cursor (c : String) (h : ∀ ch ∈ c.data, unreserved ch = true) :
    Values.Encode [("cursor", [c])] = "cursor=" ++ c := by
  have hk : QueryEscape "cursor" = "cursor" := by decide
  simp [Values.Encode, List.flatMap_cons, hk, QueryEscape_unreserved c h, String.intercalate,
    String.intercalate.go]

/-- The decimal digits are unreserved characters. -/
theorem unreserved_digitChar (m : Nat) (h : m < 10) : unreserved (Nat.digitChar m) = true := by
  interval_cases m <;> decide

/-- The digits of a number in base 10 are unreserved characters. -/
theorem unreserved_toDigitsCore (fuel : Nat) :
    ∀ (n : Nat) (ds : List Char), (∀ c ∈ ds, unreserved c = true) →
      ∀ c ∈ Nat.toDigitsCore 10 fuel n ds, unreserved c = true := by
  induction fuel with
  | zero => intro n ds hds c hc; exact hds c (by simpa [Nat.toDigitsCore] using hc)
  | succ fuel ih =>
    intro n ds hds c hc
    have hd : ∀ x ∈ Nat.digitChar (n % 10) :: ds, unreserved x = true := by
      intro x hx
      rcases List.mem_cons.1 hx with rfl | hx
      · exact unreserved_digitChar _ (Nat.mod_lt _ (by decide))
      · exact hds x hx
    simp only [Nat.toDigitsCore] at hc
    split at hc
    · exact hd c hc
    · exact ih _ _ hd c hc

/-- The decimal form of an integer has only unreserved characters. -/
theorem unreserved_toString_int (n : Int) : ∀ c ∈ (toString n).data, unreserved c = true := by
  have hnat : ∀ m : Nat, ∀ c ∈ (toString m).data, unreserved c = true := by
    intro m c hc
    exact unreserved_toDigitsCore _ m [] (by simp) c hc
  cases n with
  | ofNat m => exact hnat m
  | negSucc m =>
    intro c hc
    have hmem : c ∈ ("-" ++ toString (m + 1)).data := hc
    rw [String.data_append] at hmem
    rcases List.mem_append.1 hmem with h | h
    · simp at h; subst h; decide
    · exact hnat _ c h

/-- The encoded query of a single cursor parameter, for any cursor. -/
theorem Encode_cursor_escaped (c : String) :
    Values.Encode [("cursor", [c])] = "cursor=" ++ QueryEscape c := by
  have hk : QueryEscape "cursor" = "cursor" := by decide
  simp [Values.Encode, List.flatMap_cons, hk, String.intercalate, String.intercalate.go]

/-- The encoded query of a single page-size parameter. -/
theorem Encode_per_page (n : Int) :
    Values.Encode [("per_page", [toString n])] = "per_page=" ++ toString n := by
  have hp : QueryEscape "per_page" = "per_page" := by decide
  simp [Values.Encode, List.flatMap_cons, hp, QueryEscape_unreserved _ (unreserved_toString_int n),
    String.intercalate, String.intercalate.go]

/-- The encoded query of a page size and a cursor: the keys are written in
sorted order, the cursor first. -/
theorem Encode_per_page_cursor (n : Int) (c : String) :
    Values.Encode [("per_page", [toString n]), ("cursor", [c])]
      = "cursor=" ++ QueryEscape c ++ "&per_page=" ++ toString n := by
  have hk : QueryEscape "cursor" = "cursor" := by decide
  have hp : QueryEscape "per_page" = "per_page" := by decide
  have hle : ¬ ("per_page" ≤ "cursor") :=
    not_le.2 (String.lt_iff_toList_lt.2 (by decide))
  simp [Values.Encode, List.flatMap_cons, hk, hp,
    QueryEscape_unreserved _ (unreserved_toString_int n), String.intercalate,
    String.intercalate.go, List.insertionSort, List.orderedInsert, hle]
  simp [String.ext_iff, String.data_append]

/-- C7: the query string of the list operations. For List, ListForwardingRules
and ListFirewallRules, with the query encoder of the pagination options, the
request handed to `DoWithContext` has as raw query one parameter for each
non-default option and nothing else: options whose cursor is a non-empty
string `c` of unreserved characters, every other option unset, give `cursor=`
followed by `c`; nil options and options that are all default give the empty
raw query; the raw query is the encoding of a parameter list that has the key
`cursor` exactly when the cursor is non-empty and the key `per_page` exactly
when the page size is not 0; and for all options the raw query is, literally,
empty when both options are default, `per_page=n` for a page size `n` alone,
`cursor=` and the escaped cursor for a cursor alone, and the cursor parameter,
`&` and the page-size parameter when both are set, the escaped cursor being
the cursor itself when its characters are unreserved. -/
theorem list_query_string (e : Env) (op : Op) (options : Option ListOptions)
    (req : Request) (d : Data)
    (hop : op.options = some options)
    (hq : e.queryValues = queryValues)
    (hcall : Event.doWithContext req d ∈ (op.run e).log) :
    (∀ c : String, c ≠ "" → (∀ ch ∈ c.data, unreserved ch = true) →
      options = some { Cursor := c } → req.URL.RawQuery = "cursor=" ++ c) ∧
    (options = none ∨ options = some {} → req.URL.RawQuery = "") ∧
    (∃ values : Values, queryValues options = .ok values ∧
      req.URL.RawQuery = values.Encode ∧
      ("cursor" ∈ values.map Prod.fst ↔ ∃ o, options = some o ∧ o.Cursor ≠ "") ∧
      ("per_page" ∈ values.map Prod.fst ↔ ∃ o, options = some o ∧ o.PerPage ≠ 0)) ∧
    (∀ o : ListOptions, options = some o →
      req.URL.RawQuery =
        if o.Cursor = "" then
          (if o.PerPage = 0 then "" else "per_page=" ++ toString o.PerPage)
        else if o.PerPage = 0 then "cursor=" ++ QueryEscape o.Cursor
        else "cursor=" ++ QueryEscape o.Cursor ++ "&per_page=" ++ toString o.PerPage) ∧
    (∀ o : ListOptions, options = some o → (∀ ch ∈ o.Cursor.data, unreserved ch = true) →
      req.URL.RawQuery =
        if o.Cursor = "" then
          (if o.PerPage = 0 then "" else "per_page=" ++ toString o.PerPage)
        else if o.PerPage = 0 then "cursor=" ++ o.Cursor
        else "cursor=" ++ o.Cursor ++ "&per_page=" ++ toString o.PerPage) := by
  obtain ⟨req0, hnr, hqe, rfl, rfl⟩ := Op.mem_log_doWithContext e op req d hcall
  have hsend : (op.send e req0).URL.RawQuery
      = match queryValues options with
        | .ok values => values.Encode
        | .error _ => req0.URL.RawQuery := by
    unfold Op.send
    rw [hop, hq]
    cases options <;> rfl
  have hall : ∀ o : ListOptions, options = some o →
      (op.send e req0).URL.RawQuery =
        if o.Cursor = "" then
          (if o.PerPage = 0 then "" else "per_page=" ++ toString o.PerPage)
        else if o.PerPage = 0 then "cursor=" ++ QueryEscape o.Cursor
        else "cursor=" ++ QueryEscape o.Cursor ++ "&per_page=" ++ toString o.PerPage := by
    intro o hopt
    rw [hsend, hopt]
    by_cases h1 : o.PerPage = 0 <;> by_cases h2 : o.Cursor = ""
    · simp [queryValues, h1, h2]; rfl
    · simp [queryValues, h1, h2]; exact Encode_cursor_escaped o.Cursor
    · simp [queryValues, h1, h2]; exact Encode_per_page o.PerPage
    · simp [queryValues, h1, h2]; exact Encode_per_page_cursor o.PerPage o.Cursor
  refine ⟨?_, ?_, ?_, hall, ?_⟩
  · intro c hc hchars hopt
    rw [hsend, hopt]
    simp [queryValues, hc]
    exact Encode_cursor c hchars
  · rintro (hopt | hopt) <;> rw [hsend, hopt] <;> rfl
  · cases options with
    | none =>
      refine ⟨[], rfl, ?_, by simp, by simp⟩
      rw [hsend]
      rfl
    | some o =>
      refine ⟨_, rfl, ?_, ?_, ?_⟩
      · rw [hsend]
        rfl
      · by_cases h1 : o.PerPage = 0 <;> by_cases h2 : o.Cursor = "" <;> simp [h1, h2]
      · by_cases h1 : o.PerPage = 0 <;> by_cases h2 : o.Cursor = "" <;> simp [h1, h2]
  · intro o hopt hchars
    rw [hall o hopt, QueryEscape_unreserved o.Cursor hchars]

/-- Witness of C7: List with the cursor `next123` sends the raw query
`cursor=next123`; ListFirewallRules with the page size 25 sends `per_page=25`;
List with both sends `cursor=next123&per_page=25`. -/
theorem list_query_string_witness :
    (Op.run emptyObjectEnv (.List (some { Cursor := "next123" }))).log
      = [.newRequest .GET "/v2/load-balancers" .nil,
          .doWithContext ⟨.GET, ⟨"/v2/load-balancers", "cursor=next123"⟩, .nil⟩
            (.ptrptr .lbs (some {}))] ∧
    (⟨.GET, ⟨"/v2/load-balancers", "cursor=next123"⟩, .nil⟩ : Request).URL.RawQuery
      = "cursor=" ++ "next123" ∧
    (Op.run emptyObjectEnv (.ListFirewallRules "abc" (some { PerPage := 25 }))).log
      = [.newRequest .GET "/v2/load-balancers/abc/firewall-rules" .nil,
          .doWithContext ⟨.GET, ⟨"/v2/load-balancers/abc/firewall-rules", "per_page=25"⟩, .nil⟩
            (.ptrptr .fwRules (some {}))] ∧
    (Op.send emptyObjectEnv (.List (some { PerPage := 25, Cursor := "next123" }))
        ⟨.GET, ⟨"/v2/load-balancers", ""⟩, .nil⟩).URL.RawQuery
      = "cursor=next123&per_page=25" := by
  refine ⟨rfl, ?_, rfl, ?_⟩
  · exact (list_query_string emptyObjectEnv (.List (some { Cursor := "next123" }))
      (some { Cursor := "next123" })
      ⟨.GET, ⟨"/v2/load-balancers", "cursor=next123"⟩, .nil⟩ (.ptrptr .lbs (some {}))
      rfl rfl (List.Mem.tail _ (List.Mem.head _))).1 "next123" (by decide) (by decide) rfl
  · have h := (list_query_string emptyObjectEnv
      (.List (some { PerPage := 25, Cursor := "next123" }))
      (some { PerPage := 25, Cursor := "next123" })
      (Op.send emptyObjectEnv (.List (some { PerPage := 25, Cursor := "next123" }))
        ⟨.GET, ⟨"/v2/load-balancers", ""⟩, .nil⟩) (.ptrptr .lbs (some {}))
      rfl rfl (List.Mem.tail _ (List.Mem.head _))).2.2.2.2
      { PerPage := 25, Cursor := "next123" } rfl (by decide)
    rw [h]
    decide

end GoVultr
